import Mathlib

/-!
Verification of the speech-to-speech translator application
(`Speech to Speech Translator/main.py`).

The development is a shallow embedding of the program:

* the background recognition worker (`SpeechRecognitionThread.run`) is a
  function from an environment describing the outcomes of the external
  calls (microphone acquisition, `recognizer.listen`,
  `recognizer.recognize_google`) to the list of Qt signals it emits plus
  an optional uncaught exception;
* the application shell (`TranslationApp`) is a state machine: one state
  record holding the UI fields and artifacts, and a step function over
  the events the Qt event loop can deliver (button click, dropdown
  change, worker `finished`/`error` signal).  Each slot handler runs
  atomically on the event thread, exactly as in Qt.
-/

namespace SpeechApp

/-- Raw captured audio, abstracted as a list of samples. -/
abbrev Audio := List Int

/-- All-zero (or empty) audio: an empty or silence-only capture. -/
def silentAudio (a : Audio) : Bool := a.all (fun x => x == 0)

/-- Outcome of `recognizer.listen(source, timeout=5, phrase_time_limit=10)`:
either captured audio, an `sr.WaitTimeoutError`, or some other exception. -/
inductive ListenResult where
  | ok (audio : Audio)
  | waitTimeout
  | failure (msg : String)
  deriving Repr, DecidableEq

/-- Outcome of `recognizer.recognize_google(audio, language=...)`: recognized
text, an `sr.UnknownValueError`, an `sr.RequestError`, or some other
exception. -/
inductive RecogResult where
  | ok (text : String)
  | unknownValue
  | requestError (msg : String)
  | failure (msg : String)
  deriving Repr, DecidableEq

/-- Environment of one worker run: whether `sr.Microphone()` acquisition
succeeds (it raises, e.g. `OSError`, when no input device exists), the
result of the blocking `listen` call, and the behaviour of the remote
recognition service as a function of the captured audio and the language
code. -/
structure WorkerEnv where
  micOpen : Except String Unit
  listen : ListenResult
  recognize_google : Audio → String → RecogResult

/-- A Qt signal emitted by the worker: `finished(text)` or `error(msg)`. -/
inductive Emission where
  | finished (text : String)
  | error (msg : String)
  deriving Repr, DecidableEq

/-- Result of one execution of the worker's `run` method: the signals it
emitted, in order, and the exception that escaped `run`, if any. -/
structure RunResult where
  emissions : List Emission
  uncaught : Option String
  deriving Repr, DecidableEq

def timeoutMsg : String := "Listening timed out. Please try again."

def unintelligibleMsg : String := "Speech recognition could not understand audio"

def serviceErrMsg (e : String) : String :=
  "Could not request results from speech recognition service; " ++ e

def unexpectedErrMsg (e : String) : String :=
  "An unexpected error occurred: " ++ e

namespace SpeechRecognitionThread

/-- `SpeechRecognitionThread.run`.  Mirrors the Python source line by line:
`sr.Microphone()` is entered OUTSIDE the `try` block, so an exception
raised while acquiring the microphone escapes `run`; everything from
`listen` on is inside the `try` with `except` clauses for
`sr.WaitTimeoutError`, `sr.UnknownValueError`, `sr.RequestError` and
`Exception`, each emitting exactly one `error` signal. -/
def run (language : String) (env : WorkerEnv) : RunResult :=
  match env.micOpen with
  | .error e => { emissions := [], uncaught := some e }
  | .ok _ =>
    match env.listen with
    | .waitTimeout =>
        { emissions := [.error timeoutMsg], uncaught := none }
    | .failure e =>
        { emissions := [.error (unexpectedErrMsg e)], uncaught := none }
    | .ok audio =>
      match env.recognize_google audio language with
      | .ok text =>
          { emissions := [.finished text], uncaught := none }
      | .unknownValue =>
          { emissions := [.error unintelligibleMsg], uncaught := none }
      | .requestError e =>
          { emissions := [.error (serviceErrMsg e)], uncaught := none }
      | .failure e =>
          { emissions := [.error (unexpectedErrMsg e)], uncaught := none }

end SpeechRecognitionThread

/-- The four classified failure notifications of the worker: timeout,
unintelligible audio, service unreachable, unknown error. -/
def classifiedFailureMsg (m : String) : Prop :=
  m = timeoutMsg ∨ m = unintelligibleMsg ∨
  (∃ e, m = serviceErrMsg e) ∨ (∃ e, m = unexpectedErrMsg e)

/-- A worker environment in which microphone acquisition fails (for example
no default input device is present). -/
def micFailEnv : WorkerEnv :=
  { micOpen := .error "OSError: No Default Input Device Available"
    listen := .waitTimeout
    recognize_google := fun _ _ => .unknownValue }

/-- A worker environment in which the microphone opens, the capture returns
silence-only audio, and the recognition service (as documented) answers
`UnknownValueError` on audio it cannot understand. -/
def silenceEnv : WorkerEnv :=
  { micOpen := .ok ()
    listen := .ok [0, 0, 0]
    recognize_google := fun a _ =>
      if silentAudio a then .unknownValue else .ok "hello" }

/-! ### The application shell (`TranslationApp`) as a state machine -/

/-- Entries of the abstract execution log, recording when each step of a
cycle starts and completes.  `recogStart` is `thread.start()`,
`recogSuccess`/`recogFailure` are the delivery of the worker's
`finished`/`error` signal, `translateStart`/`translateDone`/`translateFail`
bracket `translator.translate`, `synthStart` is entry into
`generate_and_play_audio`, `playStart` is `player.play()`. -/
inductive LogEntry where
  | recogStart
  | recogSuccess
  | recogFailure
  | translateStart
  | translateDone
  | translateFail
  | synthStart
  | synthFail
  | playStart
  deriving Repr, DecidableEq

/-- The `languages` dictionary of `TranslationApp.__init__`, in insertion
order: (display name, code) pairs filling both dropdowns. -/
def languages : List (String × String) :=
  [("English", "en"), ("Spanish", "es"), ("French", "fr"), ("German", "de"),
   ("Italian", "it"), ("Portuguese", "pt"), ("Russian", "ru"),
   ("Japanese", "ja"), ("Korean", "ko"), ("Chinese", "zh-CN"),
   ("Marathi", "mr"), ("Hindi", "hi"), ("Kannada", "kn")]

/-- State of the `TranslationApp` window together with the observable
history needed to state the properties: modal notices shown, transient
files created, and the arguments of every recognition and translation
call. -/
structure AppState where
  /-- `self.source_lang.currentData()` -/
  sourceLang : String
  /-- `self.target_lang.currentData()` -/
  targetLang : String
  /-- contents of `self.input_text` (recognized-text pane) -/
  inputText : String
  /-- contents of `self.output_text` (translated-text pane) -/
  outputText : String
  /-- `self.speak_button.isEnabled()` -/
  speakEnabled : Bool
  /-- `self.speak_button.text()` -/
  speakLabel : String
  /-- languages of the recognition threads currently running -/
  inFlightThreads : List String
  /-- `self.temp_audio_file` -/
  tempAudioFile : Option String
  /-- the source currently set on `self.player` (single media player) -/
  playerSource : Option String
  /-- history of `QMessageBox.warning` calls: (title, message) -/
  notices : List (String × String)
  /-- transient files created on disk during the session, in order -/
  files : List String
  /-- languages passed to each `SpeechRecognitionThread` started -/
  recogCalls : List String
  /-- arguments (source_text, source_lang, target_lang) of each
  `translator.translate` request -/
  translateCalls : List (String × String × String)
  /-- abstract execution log -/
  log : List LogEntry
  deriving Repr, DecidableEq

/-- State after `TranslationApp.__init__`: source dropdown at index 0
(English, `en`), target at index 1 (Spanish, `es`), both panes empty,
button enabled with label `Speak`, no thread, no temp file. -/
def initState : AppState :=
  { sourceLang := "en"
    targetLang := "es"
    inputText := ""
    outputText := ""
    speakEnabled := true
    speakLabel := "Speak"
    inFlightThreads := []
    tempAudioFile := none
    playerSource := none
    notices := []
    files := []
    recogCalls := []
    translateCalls := []
    log := [] }

/-- Outcome of the `gTTS` construction / `tts.save` sequence in
`generate_and_play_audio`: the constructor may raise (no file created
yet), `save` may raise (the `NamedTemporaryFile` already exists on disk
but `self.temp_audio_file` has not been assigned), or both succeed. -/
inductive SynthCall where
  | ctorFail (msg : String)
  | saveFail (msg : String)
  | ok
  deriving Repr, DecidableEq

/-- Environment of one synthesis attempt: the random stem that
`tempfile.NamedTemporaryFile(delete=False, suffix=".mp3")` picks for the
new file, and how the gTTS calls behave. -/
structure SynthEnv where
  freshBase : String
  call : SynthCall
  deriving Repr, DecidableEq

/-- The full path of the temporary file: the random stem with the
requested `.mp3` suffix appended by `tempfile`. -/
def freshName (env : SynthEnv) : String := env.freshBase ++ ".mp3"

/-- Environment of the inline translation/synthesis chain run on a
`finished` signal: result of `translator.translate` and the synthesis
environment. -/
structure TransEnv where
  translate : Except String String
  synth : SynthEnv

/-- `QMessageBox.warning(self, title, message)`: record one modal notice. -/
def showWarning (s : AppState) (title message : String) : AppState :=
  { s with notices := s.notices ++ [(title, message)] }

namespace TranslationApp

/-- `TranslationApp.generate_and_play_audio(text, lang)`.  On success a new
temporary file is created, recorded in `self.temp_audio_file`, set as the
player source and played.  If `gTTS(...)` raises, no file is created; if
`tts.save` raises, the file exists but `self.temp_audio_file` is not
assigned.  Every exception is caught and shown as an
`Audio Generation Error` notice. -/
def generate_and_play_audio (s : AppState) (text lang : String)
    (env : SynthEnv) : AppState :=
  let s := { s with log := s.log ++ [LogEntry.synthStart] }
  match env.call with
  | .ctorFail e =>
      showWarning { s with log := s.log ++ [LogEntry.synthFail] }
        "Audio Generation Error"
        ("An error occurred while generating audio: " ++ e)
  | .saveFail e =>
      showWarning
        { s with files := s.files ++ [freshName env]
                 log := s.log ++ [LogEntry.synthFail] }
        "Audio Generation Error"
        ("An error occurred while generating audio: " ++ e)
  | .ok =>
      { s with files := s.files ++ [freshName env]
               tempAudioFile := some (freshName env)
               playerSource := some (freshName env)
               log := s.log ++ [LogEntry.playStart] }

/-- `TranslationApp.translate_text(source_text)`: re-reads both dropdowns,
calls the translation service; on success fills the translated-text pane
and runs synthesis inline; on failure shows a `Translation Error` notice
and changes nothing else. -/
def translate_text (s : AppState) (source_text : String)
    (env : TransEnv) : AppState :=
  let source_lang := s.sourceLang
  let target_lang := s.targetLang
  let s := { s with
    translateCalls := s.translateCalls ++ [(source_text, source_lang, target_lang)]
    log := s.log ++ [LogEntry.translateStart] }
  match env.translate with
  | .error e =>
      showWarning { s with log := s.log ++ [LogEntry.translateFail] }
        "Translation Error"
        ("An error occurred during translation: " ++ e)
  | .ok translated_text =>
      let s := { s with
        outputText := translated_text
        log := s.log ++ [LogEntry.translateDone] }
      generate_and_play_audio s translated_text target_lang env.synth

/-- `TranslationApp.start_speech_recognition`: reads the source dropdown,
starts a `SpeechRecognitionThread` with that language, disables the
button and relabels it `Listening...`. -/
def start_speech_recognition (s : AppState) : AppState :=
  let source_lang := s.sourceLang
  { s with
    inFlightThreads := s.inFlightThreads ++ [source_lang]
    recogCalls := s.recogCalls ++ [source_lang]
    speakEnabled := false
    speakLabel := "Listening..."
    log := s.log ++ [LogEntry.recogStart] }

/-- `TranslationApp.on_speech_recognized(text)`: the delivered `finished`
signal means the worker completed; fill the recognized-text pane,
re-enable the button, then run `translate_text` inline. -/
def on_speech_recognized (s : AppState) (text : String)
    (env : TransEnv) : AppState :=
  let s := { s with
    inFlightThreads := []
    inputText := text
    speakEnabled := true
    speakLabel := "Speak"
    log := s.log ++ [LogEntry.recogSuccess] }
  translate_text s text env

/-- `TranslationApp.on_speech_error(error_message)`: re-enable the button
and show a `Speech Recognition Error` notice; the text panes are not
touched. -/
def on_speech_error (s : AppState) (error_message : String) : AppState :=
  showWarning
    { s with
      inFlightThreads := []
      speakEnabled := true
      speakLabel := "Speak"
      log := s.log ++ [LogEntry.recogFailure] }
    "Speech Recognition Error" error_message

end TranslationApp

/-- Events the Qt event loop can deliver to the shell.  `recognized` and
`recogError` carry the environment of the inline work done by the slot. -/
inductive Event where
  | click
  | setSourceLang (code : String)
  | setTargetLang (code : String)
  | recognized (text : String) (env : TransEnv)
  | recogError (msg : String)

/-- One atomic event-loop step.  A click on a disabled button is not
delivered by Qt; a dropdown change can only select one of the 13 listed
codes; a worker signal can only arrive while a worker is running. -/
def step (s : AppState) (e : Event) : AppState :=
  match e with
  | .click =>
      if s.speakEnabled then TranslationApp.start_speech_recognition s else s
  | .setSourceLang c =>
      if (languages.map Prod.snd).contains c then { s with sourceLang := c } else s
  | .setTargetLang c =>
      if (languages.map Prod.snd).contains c then { s with targetLang := c } else s
  | .recognized text env =>
      if s.inFlightThreads = [] then s
      else TranslationApp.on_speech_recognized s text env
  | .recogError msg =>
      if s.inFlightThreads = [] then s
      else TranslationApp.on_speech_error s msg

/-- Environment validity: `tempfile.NamedTemporaryFile` always picks a name
that does not collide with an existing file. -/
def validEvent (s : AppState) (e : Event) : Prop :=
  match e with
  | .recognized _ env => freshName env.synth ∉ s.files
  | _ => True

/-- Reachable shell states: the initial state and everything obtained by
valid event-loop steps. -/
inductive Reach : AppState → Prop where
  | init : Reach initState
  | step {s : AppState} {e : Event} :
      Reach s → validEvent s e → Reach (step s e)

/-! ### Shutdown (`TranslationApp.closeEvent`) -/

/-- Observable effects of `closeEvent`: files unlinked, lines printed to
the console, modal notices shown, and whether the close event was
accepted. -/
structure CloseResult where
  deleted : List String
  printed : List String
  noticesShown : List (String × String)
  accepted : Bool
  deriving Repr, DecidableEq

namespace TranslationApp

/-- `TranslationApp.closeEvent(event)`: if `self.temp_audio_file` is set,
try `os.unlink` on it; a failure is printed, never shown as a notice;
`event.accept()` runs unconditionally.  `unlinkError f` is the exception
message `os.unlink(f)` raises, if any. -/
def closeEvent (s : AppState) (unlinkError : String → Option String) :
    CloseResult :=
  match s.tempAudioFile with
  | none => { deleted := [], printed := [], noticesShown := [], accepted := true }
  | some f =>
    match unlinkError f with
    | none =>
        { deleted := [f], printed := [], noticesShown := [], accepted := true }
    | some e =>
        { deleted := []
          printed := ["Error deleting temporary file: " ++ e]
          noticesShown := []
          accepted := true }

end TranslationApp

/-! ### The log automaton and the reachability invariant -/

/-- Phase automaton on the execution log.  Phase 0 is `Idle`, 1 is
`Listening`; 2–5 are the intermediate points of the inline
translate/synthesize chain, which never survive past one event-loop
step. -/
def logStep (p : Nat) (e : LogEntry) : Option Nat :=
  match e with
  | .recogStart => if p = 0 then some 1 else none
  | .recogSuccess => if p = 1 then some 2 else none
  | .recogFailure => if p = 1 then some 0 else none
  | .translateStart => if p = 2 then some 3 else none
  | .translateDone => if p = 3 then some 4 else none
  | .translateFail => if p = 3 then some 0 else none
  | .synthStart => if p = 4 then some 5 else none
  | .synthFail => if p = 5 then some 0 else none
  | .playStart => if p = 5 then some 0 else none

/-- Run the phase automaton over a log. -/
def runLog (op : Option Nat) (l : List LogEntry) : Option Nat :=
  l.foldl (fun acc e => acc.bind (fun p => logStep p e)) op

theorem runLog_append (op : Option Nat) (l₁ l₂ : List LogEntry) :
    runLog op (l₁ ++ l₂) = runLog (runLog op l₁) l₂ :=
  List.foldl_append _ _ _ _

theorem runLog_none (l : List LogEntry) : runLog none l = none := by
  induction l with
  | nil => rfl
  | cons e l ih => simpa [runLog] using ih

theorem runLog_cons (op : Option Nat) (e : LogEntry) (l : List LogEntry) :
    runLog op (e :: l) = runLog (op.bind (fun p => logStep p e)) l := rfl

/-- The invariant tying button state, thread count, artifact bookkeeping
and the log phase together. -/
def Inv (s : AppState) : Prop :=
  s.speakEnabled = s.inFlightThreads.isEmpty ∧
  s.speakLabel = (if s.inFlightThreads = [] then "Speak" else "Listening...") ∧
  s.inFlightThreads.length ≤ 1 ∧
  (∀ f, s.tempAudioFile = some f → f ∈ s.files) ∧
  runLog (some 0) s.log = some (if s.inFlightThreads = [] then 0 else 1)

theorem inv_init : Inv initState := by
  refine ⟨rfl, rfl, by simp [initState], ?_, rfl⟩
  intro f h
  simp [initState] at h

theorem inv_step (s : AppState) (e : Event) (h : Inv s) : Inv (step s e) := by
  obtain ⟨hEn, hLab, hLen, hFile, hLog⟩ := h
  cases e with
  | click =>
      show Inv (if s.speakEnabled = true then
        TranslationApp.start_speech_recognition s else s)
      by_cases hb : s.speakEnabled = true
      · rw [if_pos hb]
        have hEmpty : s.inFlightThreads = [] :=
          List.isEmpty_iff.mp (hEn.symm.trans hb)
        have hLog0 : runLog (some 0) s.log = some 0 := by
          rwa [if_pos hEmpty] at hLog
        refine ⟨?_, ?_, ?_, hFile, ?_⟩
        · simp [TranslationApp.start_speech_recognition]
        · simp [TranslationApp.start_speech_recognition]
        · simp [TranslationApp.start_speech_recognition, hEmpty]
        · show runLog (some 0) (s.log ++ [LogEntry.recogStart]) = _
          rw [runLog_append, hLog0]
          simp [TranslationApp.start_speech_recognition, runLog, logStep]
      · rw [if_neg hb]
        exact ⟨hEn, hLab, hLen, hFile, hLog⟩
  | setSourceLang c =>
      show Inv (if (languages.map Prod.snd).contains c = true then
        { s with sourceLang := c } else s)
      by_cases hc : (languages.map Prod.snd).contains c = true
      · rw [if_pos hc]
        exact ⟨hEn, hLab, hLen, hFile, hLog⟩
      · rw [if_neg hc]
        exact ⟨hEn, hLab, hLen, hFile, hLog⟩
  | setTargetLang c =>
      show Inv (if (languages.map Prod.snd).contains c = true then
        { s with targetLang := c } else s)
      by_cases hc : (languages.map Prod.snd).contains c = true
      · rw [if_pos hc]
        exact ⟨hEn, hLab, hLen, hFile, hLog⟩
      · rw [if_neg hc]
        exact ⟨hEn, hLab, hLen, hFile, hLog⟩
  | recognized text env =>
      show Inv (if s.inFlightThreads = [] then s
        else TranslationApp.on_speech_recognized s text env)
      by_cases hin : s.inFlightThreads = []
      · rw [if_pos hin]
        exact ⟨hEn, hLab, hLen, hFile, hLog⟩
      · rw [if_neg hin]
        rw [if_neg hin] at hLog
        obtain ⟨tr, base, call⟩ := env
        cases tr with
        | error e =>
            refine ⟨rfl, rfl, Nat.zero_le 1, hFile, ?_⟩
            show runLog (some 0)
              (((s.log ++ [LogEntry.recogSuccess]) ++ [LogEntry.translateStart])
                ++ [LogEntry.translateFail]) =
              some (if ([] : List String) = [] then 0 else 1)
            rw [runLog_append, runLog_append, runLog_append, hLog]
            decide
        | ok tr =>
            cases call with
            | ctorFail e =>
                refine ⟨rfl, rfl, Nat.zero_le 1, hFile, ?_⟩
                show runLog (some 0)
                  (((((s.log ++ [LogEntry.recogSuccess])
                    ++ [LogEntry.translateStart]) ++ [LogEntry.translateDone])
                    ++ [LogEntry.synthStart]) ++ [LogEntry.synthFail]) =
                  some (if ([] : List String) = [] then 0 else 1)
                rw [runLog_append, runLog_append, runLog_append, runLog_append,
                    runLog_append, hLog]
                decide
            | saveFail e =>
                refine ⟨rfl, rfl, Nat.zero_le 1, ?_, ?_⟩
                · intro f hf
                  exact List.mem_append_left _ (hFile f hf)
                · show runLog (some 0)
                    (((((s.log ++ [LogEntry.recogSuccess])
                      ++ [LogEntry.translateStart]) ++ [LogEntry.translateDone])
                      ++ [LogEntry.synthStart]) ++ [LogEntry.synthFail]) =
                    some (if ([] : List String) = [] then 0 else 1)
                  rw [runLog_append, runLog_append, runLog_append, runLog_append,
                      runLog_append, hLog]
                  decide
            | ok =>
                refine ⟨rfl, rfl, Nat.zero_le 1, ?_, ?_⟩
                · intro f hf
                  have : f = freshName ⟨base, SynthCall.ok⟩ :=
                    Option.some_injective _ hf.symm
                  subst this
                  exact List.mem_append_right _ (List.mem_singleton.mpr rfl)
                · show runLog (some 0)
                    (((((s.log ++ [LogEntry.recogSuccess])
                      ++ [LogEntry.translateStart]) ++ [LogEntry.translateDone])
                      ++ [LogEntry.synthStart]) ++ [LogEntry.playStart]) =
                    some (if ([] : List String) = [] then 0 else 1)
                  rw [runLog_append, runLog_append, runLog_append, runLog_append,
                      runLog_append, hLog]
                  decide
  | recogError msg =>
      show Inv (if s.inFlightThreads = [] then s
        else TranslationApp.on_speech_error s msg)
      by_cases hin : s.inFlightThreads = []
      · rw [if_pos hin]
        exact ⟨hEn, hLab, hLen, hFile, hLog⟩
      · rw [if_neg hin]
        rw [if_neg hin] at hLog
        refine ⟨rfl, rfl, Nat.zero_le 1, hFile, ?_⟩
        show runLog (some 0) (s.log ++ [LogEntry.recogFailure]) =
          some (if ([] : List String) = [] then 0 else 1)
        rw [runLog_append, hLog]
        decide

theorem reach_inv {s : AppState} (h : Reach s) : Inv s := by
  induction h with
  | init => exact inv_init
  | step hr hv ih => exact inv_step _ _ ih

theorem runLog_split (l₁ l₂ : List LogEntry) (p : Nat)
    (h : runLog (some 0) (l₁ ++ l₂) = some p) :
    ∃ q, runLog (some 0) l₁ = some q := by
  rw [runLog_append] at h
  cases hq : runLog (some 0) l₁ with
  | none =>
      rw [hq, runLog_none] at h
      cases h
  | some q => exact ⟨q, rfl⟩

/-- If an accepted log contains entry `e`, the automaton was at some phase
`q` right before `e` and `e` is enabled at `q`. -/
theorem log_entry_pred (l₁ l₂ : List LogEntry) (e : LogEntry) (p : Nat)
    (h : runLog (some 0) (l₁ ++ e :: l₂) = some p) :
    ∃ q r, runLog (some 0) l₁ = some q ∧ logStep q e = some r := by
  rw [List.append_cons] at h
  obtain ⟨r', hr'⟩ := runLog_split (l₁ ++ [e]) l₂ p h
  rw [runLog_append] at hr'
  cases hq : runLog (some 0) l₁ with
  | none =>
      rw [hq, runLog_none] at hr'
      cases hr'
  | some q =>
      rw [hq] at hr'
      exact ⟨q, r', rfl, hr'⟩

/-- Phase 2 (recognition just succeeded) is only ever entered by a
`recogSuccess` entry. -/
theorem phase_two_last (l : List LogEntry)
    (h : runLog (some 0) l = some 2) :
    ∃ l₀, l = l₀ ++ [LogEntry.recogSuccess] := by
  rcases List.eq_nil_or_concat l with rfl | ⟨l₀, e, rfl⟩
  · cases h
  · rw [List.concat_eq_append] at h ⊢
    refine ⟨l₀, ?_⟩
    rw [runLog_append] at h
    cases hq : runLog (some 0) l₀ with
    | none =>
        rw [hq, runLog_none] at h
        cases h
    | some q =>
        rw [hq] at h
        have h' : logStep q e = some 2 := h
        cases e <;> simp_all [logStep]

/-- Phase 4 (translation just completed) is only ever entered by a
`translateDone` entry. -/
theorem phase_four_last (l : List LogEntry)
    (h : runLog (some 0) l = some 4) :
    ∃ l₀, l = l₀ ++ [LogEntry.translateDone] := by
  rcases List.eq_nil_or_concat l with rfl | ⟨l₀, e, rfl⟩
  · cases h
  · rw [List.concat_eq_append] at h ⊢
    refine ⟨l₀, ?_⟩
    rw [runLog_append] at h
    cases hq : runLog (some 0) l₀ with
    | none =>
        rw [hq, runLog_none] at h
        cases h
    | some q =>
        rw [hq] at h
        have h' : logStep q e = some 4 := h
        cases e <;> simp_all [logStep]

/-- After any delivered outcome the button is enabled with label `Speak`,
whatever the inline chain did. -/
theorem on_speech_recognized_button (s : AppState) (t : String)
    (env : TransEnv) :
    (TranslationApp.on_speech_recognized s t env).speakEnabled = true ∧
    (TranslationApp.on_speech_recognized s t env).speakLabel = "Speak" := by
  obtain ⟨tr, base, call⟩ := env
  cases tr <;> cases call <;> exact ⟨rfl, rfl⟩

/-! ### The claims -/

/-- C1 (counterexample): the claim that every run of the Recognition Worker
emits exactly one notification and never propagates an exception is false
as stated.  `sr.Microphone()` is entered outside the `try` block of
`SpeechRecognitionThread.run`; in a run where microphone acquisition
raises (for example no default input device exists), zero notifications
are emitted and the exception propagates out of the worker. -/
theorem C1_counterexample :
    (SpeechRecognitionThread.run "en" micFailEnv).emissions = [] ∧
    (SpeechRecognitionThread.run "en" micFailEnv).uncaught =
      some "OSError: No Default Input Device Available" :=
  ⟨rfl, rfl⟩

/-- C1 (amended): for every run of the Recognition Worker in which the
microphone acquisition succeeds, the run completes with exactly one
outcome — it emits exactly one notification, either recognized text or a
failure classified as one of timeout, unintelligible audio, service
unreachable, or unknown error (never both, never zero) — and no exception
propagates out of the worker. -/
theorem C1_worker_single_notification (language : String) (env : WorkerEnv)
    (h : env.micOpen = Except.ok ()) :
    (SpeechRecognitionThread.run language env).uncaught = none ∧
    ∃ e, (SpeechRecognitionThread.run language env).emissions = [e] ∧
      ((∃ t, e = Emission.finished t) ∨
       (∃ m, e = Emission.error m ∧ classifiedFailureMsg m)) := by
  obtain ⟨mic, listen, recog⟩ := env
  have hm : mic = Except.ok () := h
  subst hm
  cases listen with
  | waitTimeout =>
      exact ⟨rfl, _, rfl, Or.inr ⟨_, rfl, Or.inl rfl⟩⟩
  | failure e =>
      exact ⟨rfl, _, rfl, Or.inr ⟨_, rfl, Or.inr (Or.inr (Or.inr ⟨e, rfl⟩))⟩⟩
  | ok audio =>
      cases hr : recog audio language with
      | ok t =>
          refine ⟨?_, Emission.finished t, ?_, Or.inl ⟨t, rfl⟩⟩ <;>
            simp [SpeechRecognitionThread.run, hr]
      | unknownValue =>
          refine ⟨?_, Emission.error unintelligibleMsg, ?_,
            Or.inr ⟨_, rfl, Or.inr (Or.inl rfl)⟩⟩ <;>
            simp [SpeechRecognitionThread.run, hr]
      | requestError e =>
          refine ⟨?_, Emission.error (serviceErrMsg e), ?_,
            Or.inr ⟨_, rfl, Or.inr (Or.inr (Or.inl ⟨e, rfl⟩))⟩⟩ <;>
            simp [SpeechRecognitionThread.run, hr]
      | failure e =>
          refine ⟨?_, Emission.error (unexpectedErrMsg e), ?_,
            Or.inr ⟨_, rfl, Or.inr (Or.inr (Or.inr ⟨e, rfl⟩))⟩⟩ <;>
            simp [SpeechRecognitionThread.run, hr]

/-- Witness for C1 at a concrete environment. -/
theorem C1_worker_single_notification_witness :
    silenceEnv.micOpen = Except.ok () ∧
    ((SpeechRecognitionThread.run "en" silenceEnv).uncaught = none ∧
     ∃ e, (SpeechRecognitionThread.run "en" silenceEnv).emissions = [e] ∧
       ((∃ t, e = Emission.finished t) ∨
        (∃ m, e = Emission.error m ∧ classifiedFailureMsg m))) :=
  ⟨rfl, C1_worker_single_notification "en" silenceEnv rfl⟩

/-- C2: in every reachable state the trigger control is disabled exactly
while a recognition attempt is in flight (so for the whole window between
trigger and outcome, and never outside it); clicking in an enabled state
disables it at once, and the delivery of any outcome — success or failure
— returns it to its enabled `Speak` label. -/
theorem C2_trigger_control {s : AppState} (h : Reach s) :
    (s.speakEnabled = false ↔ s.inFlightThreads ≠ []) ∧
    (s.inFlightThreads = [] → s.speakEnabled = true ∧ s.speakLabel = "Speak") ∧
    (s.speakEnabled = true → (step s Event.click).speakEnabled = false) ∧
    (∀ t env, s.inFlightThreads ≠ [] →
      (step s (Event.recognized t env)).speakEnabled = true ∧
      (step s (Event.recognized t env)).speakLabel = "Speak") ∧
    (∀ m, s.inFlightThreads ≠ [] →
      (step s (Event.recogError m)).speakEnabled = true ∧
      (step s (Event.recogError m)).speakLabel = "Speak") := by
  obtain ⟨hEn, hLab, hLen, hFile, hLog⟩ := reach_inv h
  refine ⟨?_, ?_, ?_, ?_, ?_⟩
  · rw [hEn]
    cases s.inFlightThreads <;> simp
  · intro hnil
    rw [hEn, hnil, hLab, if_pos hnil]
    exact ⟨rfl, rfl⟩
  · intro hb
    show (if s.speakEnabled = true then
      TranslationApp.start_speech_recognition s else s).speakEnabled = false
    rw [if_pos hb]
    rfl
  · intro t env hin
    have hs : step s (Event.recognized t env) =
        TranslationApp.on_speech_recognized s t env := by
      show (if s.inFlightThreads = [] then s else _) = _
      rw [if_neg hin]
    rw [hs]
    exact on_speech_recognized_button s t env
  · intro m hin
    have hs : step s (Event.recogError m) =
        TranslationApp.on_speech_error s m := by
      show (if s.inFlightThreads = [] then s else _) = _
      rw [if_neg hin]
    rw [hs]
    exact ⟨rfl, rfl⟩

/-- Witness for C2 at the initial state. -/
theorem C2_trigger_control_witness :
    (initState.speakEnabled = false ↔ initState.inFlightThreads ≠ []) ∧
    (initState.inFlightThreads = [] →
      initState.speakEnabled = true ∧ initState.speakLabel = "Speak") ∧
    (initState.speakEnabled = true →
      (step initState Event.click).speakEnabled = false) ∧
    (∀ t env, initState.inFlightThreads ≠ [] →
      (step initState (Event.recognized t env)).speakEnabled = true ∧
      (step initState (Event.recognized t env)).speakLabel = "Speak") ∧
    (∀ m, initState.inFlightThreads ≠ [] →
      (step initState (Event.recogError m)).speakEnabled = true ∧
      (step initState (Event.recogError m)).speakLabel = "Speak") :=
  C2_trigger_control Reach.init

/-- C3: any delivered recognition failure (timeout, unintelligible,
service error, or unknown — whatever the message) shows exactly one
failure notice, leaves both text panes, the filesystem and the tracked
artifact unchanged, and re-enables the trigger control with its `Speak`
label, ending the in-flight attempt. -/
theorem C3_recognition_failure_frame (s : AppState) (m : String)
    (h : s.inFlightThreads ≠ []) :
    (step s (Event.recogError m)).inputText = s.inputText ∧
    (step s (Event.recogError m)).outputText = s.outputText ∧
    (step s (Event.recogError m)).speakEnabled = true ∧
    (step s (Event.recogError m)).speakLabel = "Speak" ∧
    (step s (Event.recogError m)).notices =
      s.notices ++ [("Speech Recognition Error", m)] ∧
    (step s (Event.recogError m)).inFlightThreads = [] ∧
    (step s (Event.recogError m)).files = s.files ∧
    (step s (Event.recogError m)).tempAudioFile = s.tempAudioFile := by
  have hs : step s (Event.recogError m) =
      TranslationApp.on_speech_error s m := by
    show (if s.inFlightThreads = [] then s else _) = _
    rw [if_neg h]
  rw [hs]
  exact ⟨rfl, rfl, rfl, rfl, rfl, rfl, rfl, rfl⟩

/-- Witness for C3: a timeout notice delivered right after a click. -/
theorem C3_recognition_failure_frame_witness :
    (step initState Event.click).inFlightThreads ≠ [] ∧
    ((step (step initState Event.click) (Event.recogError timeoutMsg)).inputText
        = (step initState Event.click).inputText ∧
     (step (step initState Event.click) (Event.recogError timeoutMsg)).outputText
        = (step initState Event.click).outputText ∧
     (step (step initState Event.click) (Event.recogError timeoutMsg)).speakEnabled
        = true ∧
     (step (step initState Event.click) (Event.recogError timeoutMsg)).speakLabel
        = "Speak" ∧
     (step (step initState Event.click) (Event.recogError timeoutMsg)).notices
        = (step initState Event.click).notices
          ++ [("Speech Recognition Error", timeoutMsg)] ∧
     (step (step initState Event.click) (Event.recogError timeoutMsg)).inFlightThreads
        = [] ∧
     (step (step initState Event.click) (Event.recogError timeoutMsg)).files
        = (step initState Event.click).files ∧
     (step (step initState Event.click) (Event.recogError timeoutMsg)).tempAudioFile
        = (step initState Event.click).tempAudioFile) :=
  ⟨by decide, C3_recognition_failure_frame (step initState Event.click)
    timeoutMsg (by decide)⟩

/-- C4: when recognition succeeds but the Translation Step fails, the
recognized-text pane is filled with the recognized text, the
translated-text pane is unchanged, exactly one `Translation Error` notice
is shown, and the shell returns to idle with the trigger control enabled
(label `Speak`); no file or artifact changes. -/
theorem C4_translation_failure_frame (s : AppState) (t e : String)
    (env : TransEnv) (hin : s.inFlightThreads ≠ [])
    (htr : env.translate = Except.error e) :
    (step s (Event.recognized t env)).inputText = t ∧
    (step s (Event.recognized t env)).outputText = s.outputText ∧
    (step s (Event.recognized t env)).notices =
      s.notices ++ [("Translation Error",
        "An error occurred during translation: " ++ e)] ∧
    (step s (Event.recognized t env)).speakEnabled = true ∧
    (step s (Event.recognized t env)).speakLabel = "Speak" ∧
    (step s (Event.recognized t env)).inFlightThreads = [] ∧
    (step s (Event.recognized t env)).files = s.files ∧
    (step s (Event.recognized t env)).tempAudioFile = s.tempAudioFile := by
  have hs : step s (Event.recognized t env) =
      TranslationApp.on_speech_recognized s t env := by
    show (if s.inFlightThreads = [] then s else _) = _
    rw [if_neg hin]
  rw [hs]
  refine ⟨?_, ?_, ?_, ?_, ?_, ?_, ?_, ?_⟩ <;>
    simp [TranslationApp.on_speech_recognized, TranslationApp.translate_text,
          showWarning, htr]

/-- A translation environment whose service call fails. -/
def transFailEnv : TransEnv :=
  { translate := Except.error "server returned 429"
    synth := { freshBase := "/tmp/tts0", call := SynthCall.ok } }

/-- Witness for C4: a failed translation right after a successful
recognition delivered after a click. -/
theorem C4_translation_failure_frame_witness :
    (step initState Event.click).inFlightThreads ≠ [] ∧
    transFailEnv.translate = Except.error "server returned 429" ∧
    ((step (step initState Event.click)
        (Event.recognized "hello world" transFailEnv)).inputText
      = "hello world" ∧
     (step (step initState Event.click)
        (Event.recognized "hello world" transFailEnv)).outputText
      = (step initState Event.click).outputText ∧
     (step (step initState Event.click)
        (Event.recognized "hello world" transFailEnv)).notices
      = (step initState Event.click).notices
        ++ [("Translation Error",
          "An error occurred during translation: " ++ "server returned 429")] ∧
     (step (step initState Event.click)
        (Event.recognized "hello world" transFailEnv)).speakEnabled = true ∧
     (step (step initState Event.click)
        (Event.recognized "hello world" transFailEnv)).speakLabel = "Speak" ∧
     (step (step initState Event.click)
        (Event.recognized "hello world" transFailEnv)).inFlightThreads = [] ∧
     (step (step initState Event.click)
        (Event.recognized "hello world" transFailEnv)).files
      = (step initState Event.click).files ∧
     (step (step initState Event.click)
        (Event.recognized "hello world" transFailEnv)).tempAudioFile
      = (step initState Event.click).tempAudioFile) :=
  ⟨by decide, rfl, C4_translation_failure_frame (step initState Event.click)
    "hello world" "server returned 429" transFailEnv (by decide) rfl⟩

/-- C5: in every reachable state, at most one recognition attempt is in
flight, every start of the Translation Step is immediately preceded in
the execution log by a successful recognition completion, and every start
of the Synthesis & Playback Step is immediately preceded by a successful
translation completion. -/
theorem C5_step_ordering {s : AppState} (h : Reach s) :
    s.inFlightThreads.length ≤ 1 ∧
    (∀ l₁ l₂, s.log = l₁ ++ LogEntry.translateStart :: l₂ →
      ∃ l₀, l₁ = l₀ ++ [LogEntry.recogSuccess]) ∧
    (∀ l₁ l₂, s.log = l₁ ++ LogEntry.synthStart :: l₂ →
      ∃ l₀, l₁ = l₀ ++ [LogEntry.translateDone]) := by
  obtain ⟨hEn, hLab, hLen, hFile, hLog⟩ := reach_inv h
  refine ⟨hLen, ?_, ?_⟩
  · intro l₁ l₂ hsplit
    rw [hsplit] at hLog
    obtain ⟨q, r, hq, hstep⟩ := log_entry_pred l₁ l₂ LogEntry.translateStart _ hLog
    have hq2 : q = 2 := by
      by_cases h2 : q = 2
      · exact h2
      · simp [logStep, h2] at hstep
    exact phase_two_last l₁ (hq2 ▸ hq)
  · intro l₁ l₂ hsplit
    rw [hsplit] at hLog
    obtain ⟨q, r, hq, hstep⟩ := log_entry_pred l₁ l₂ LogEntry.synthStart _ hLog
    have hq4 : q = 4 := by
      by_cases h4 : q = 4
      · exact h4
      · simp [logStep, h4] at hstep
    exact phase_four_last l₁ (hq4 ▸ hq)

/-- Witness for C5 at the initial state. -/
theorem C5_step_ordering_witness :
    initState.inFlightThreads.length ≤ 1 ∧
    (∀ l₁ l₂, initState.log = l₁ ++ LogEntry.translateStart :: l₂ →
      ∃ l₀, l₁ = l₀ ++ [LogEntry.recogSuccess]) ∧
    (∀ l₁ l₂, initState.log = l₁ ++ LogEntry.synthStart :: l₂ →
      ∃ l₀, l₁ = l₀ ++ [LogEntry.translateDone]) :=
  C5_step_ordering Reach.init

/-- C6: a fully successful synthesis right after a successful recognition
and translation creates exactly one new transient file, whose name ends
in `.mp3` and differs from the previously tracked artifact (the new name
is fresh while the prior file still exists); the new file is recorded as
the tracked artifact and becomes the source of the single media player. -/
theorem C6_fresh_artifact {s : AppState} (h : Reach s) (t tr : String)
    (env : TransEnv) (hin : s.inFlightThreads ≠ [])
    (htr : env.translate = Except.ok tr)
    (hok : env.synth.call = SynthCall.ok)
    (hfresh : freshName env.synth ∉ s.files) :
    (step s (Event.recognized t env)).files =
      s.files ++ [freshName env.synth] ∧
    (∃ b, freshName env.synth = b ++ ".mp3") ∧
    (step s (Event.recognized t env)).tempAudioFile =
      some (freshName env.synth) ∧
    (step s (Event.recognized t env)).playerSource =
      some (freshName env.synth) ∧
    (∀ old, s.tempAudioFile = some old → freshName env.synth ≠ old) := by
  obtain ⟨hEn, hLab, hLen, hFile, hLog⟩ := reach_inv h
  have hs : step s (Event.recognized t env) =
      TranslationApp.on_speech_recognized s t env := by
    show (if s.inFlightThreads = [] then s else _) = _
    rw [if_neg hin]
  refine ⟨?_, ⟨env.synth.freshBase, rfl⟩, ?_, ?_, ?_⟩
  · rw [hs]
    simp [TranslationApp.on_speech_recognized, TranslationApp.translate_text,
          TranslationApp.generate_and_play_audio, showWarning, htr, hok]
  · rw [hs]
    simp [TranslationApp.on_speech_recognized, TranslationApp.translate_text,
          TranslationApp.generate_and_play_audio, showWarning, htr, hok]
  · rw [hs]
    simp [TranslationApp.on_speech_recognized, TranslationApp.translate_text,
          TranslationApp.generate_and_play_audio, showWarning, htr, hok]
  · intro old hold heq
    exact hfresh (heq ▸ hFile old hold)

/-- A translation/synthesis environment in which every step succeeds. -/
def cycleEnv (base : String) : TransEnv :=
  { translate := Except.ok "hola mundo"
    synth := { freshBase := base, call := SynthCall.ok } }

/-- Witness for C6: one full successful cycle from the initial state. -/
theorem C6_fresh_artifact_witness :
    (step initState Event.click).inFlightThreads ≠ [] ∧
    (cycleEnv "/tmp/tts1").translate = Except.ok "hola mundo" ∧
    (cycleEnv "/tmp/tts1").synth.call = SynthCall.ok ∧
    freshName (cycleEnv "/tmp/tts1").synth ∉ (step initState Event.click).files ∧
    ((step (step initState Event.click)
        (Event.recognized "hello world" (cycleEnv "/tmp/tts1"))).files =
      (step initState Event.click).files
        ++ [freshName (cycleEnv "/tmp/tts1").synth] ∧
     (∃ b, freshName (cycleEnv "/tmp/tts1").synth = b ++ ".mp3") ∧
     (step (step initState Event.click)
        (Event.recognized "hello world" (cycleEnv "/tmp/tts1"))).tempAudioFile =
      some (freshName (cycleEnv "/tmp/tts1").synth) ∧
     (step (step initState Event.click)
        (Event.recognized "hello world" (cycleEnv "/tmp/tts1"))).playerSource =
      some (freshName (cycleEnv "/tmp/tts1").synth) ∧
     (∀ old, (step initState Event.click).tempAudioFile = some old →
        freshName (cycleEnv "/tmp/tts1").synth ≠ old)) :=
  ⟨by decide, rfl, rfl, by decide,
    C6_fresh_artifact (@Reach.step initState Event.click Reach.init trivial) "hello world"
      "hola mundo" (cycleEnv "/tmp/tts1") (by decide) rfl rfl (by decide)⟩

/-- The state after two complete successful cycles: two transient files
exist on disk, only the second is tracked in `self.temp_audio_file`. -/
def twoCycleState : AppState :=
  step (step (step (step initState Event.click)
    (Event.recognized "hello world" (cycleEnv "/tmp/tts1")))
    Event.click)
    (Event.recognized "hello again" (cycleEnv "/tmp/tts2"))

/-- C7 (counterexample): the claim that every transient audio file created
during the session is deleted at process exit is false.  After two
successful cycles two files exist, but `closeEvent` unlinks only
`self.temp_audio_file` — the second one; the first file is never deleted. -/
theorem C7_counterexample :
    twoCycleState.files = ["/tmp/tts1.mp3", "/tmp/tts2.mp3"] ∧
    "/tmp/tts1.mp3" ∈ twoCycleState.files ∧
    (TranslationApp.closeEvent twoCycleState (fun _ => none)).deleted =
      ["/tmp/tts2.mp3"] ∧
    "/tmp/tts1.mp3" ∉
      (TranslationApp.closeEvent twoCycleState (fun _ => none)).deleted := by
  refine ⟨rfl, ?_, rfl, ?_⟩ <;> decide

/-- C7 (amended): at process exit, only the most recently recorded
transient audio file is deleted, best-effort; files of earlier synthesis
cycles are not touched.  A deletion failure is logged to the console,
never surfaced as a user-visible notice, and the application still shuts
down (the close event is accepted in every case). -/
theorem C7_shutdown_cleanup (s : AppState)
    (unlinkError : String → Option String) (f : String)
    (h : s.tempAudioFile = some f) :
    (TranslationApp.closeEvent s unlinkError).accepted = true ∧
    (TranslationApp.closeEvent s unlinkError).noticesShown = [] ∧
    (unlinkError f = none →
      (TranslationApp.closeEvent s unlinkError).deleted = [f] ∧
      (TranslationApp.closeEvent s unlinkError).printed = []) ∧
    (∀ e, unlinkError f = some e →
      (TranslationApp.closeEvent s unlinkError).deleted = [] ∧
      (TranslationApp.closeEvent s unlinkError).printed =
        ["Error deleting temporary file: " ++ e]) := by
  have hc : TranslationApp.closeEvent s unlinkError =
      match unlinkError f with
      | none =>
          { deleted := [f], printed := [], noticesShown := [], accepted := true }
      | some e =>
          { deleted := []
            printed := ["Error deleting temporary file: " ++ e]
            noticesShown := []
            accepted := true } := by
    unfold TranslationApp.closeEvent
    rw [h]
  cases hu : unlinkError f with
  | none =>
      rw [hu] at hc
      rw [hc]
      refine ⟨rfl, rfl, fun _ => ⟨rfl, rfl⟩, ?_⟩
      intro e he
      cases he
  | some e =>
      rw [hu] at hc
      rw [hc]
      refine ⟨rfl, rfl, ?_, ?_⟩
      · intro hn
        cases hn
      · intro e' he'
        cases he'
        exact ⟨rfl, rfl⟩

/-- Witness for C7 at the two-cycle state, with a failing unlink for the
second application of the theorem's conditional conclusions. -/
theorem C7_shutdown_cleanup_witness :
    twoCycleState.tempAudioFile = some "/tmp/tts2.mp3" ∧
    ((TranslationApp.closeEvent twoCycleState (fun _ => none)).accepted = true ∧
     (TranslationApp.closeEvent twoCycleState (fun _ => none)).noticesShown = [] ∧
     ((fun _ => (none : Option String)) "/tmp/tts2.mp3" = none →
       (TranslationApp.closeEvent twoCycleState (fun _ => none)).deleted =
         ["/tmp/tts2.mp3"] ∧
       (TranslationApp.closeEvent twoCycleState (fun _ => none)).printed = []) ∧
     (∀ e, (fun _ => (none : Option String)) "/tmp/tts2.mp3" = some e →
       (TranslationApp.closeEvent twoCycleState (fun _ => none)).deleted = [] ∧
       (TranslationApp.closeEvent twoCycleState (fun _ => none)).printed =
         ["Error deleting temporary file: " ++ e])) :=
  ⟨rfl, C7_shutdown_cleanup twoCycleState (fun _ => none) "/tmp/tts2.mp3" rfl⟩

/-- C8: for every capture whose audio is empty or contains only silence —
to which the recognition service answers `UnknownValueError`, as its
documentation specifies — the worker emits exactly the
`RecognitionUnintelligible` notice and no exception escapes the worker. -/
theorem C8_silence_unintelligible (language : String) (env : WorkerEnv)
    (audio : Audio) (hmic : env.micOpen = Except.ok ())
    (hlisten : env.listen = ListenResult.ok audio)
    (hsilent : silentAudio audio = true)
    (hservice : ∀ a l, silentAudio a = true →
      env.recognize_google a l = RecogResult.unknownValue) :
    (SpeechRecognitionThread.run language env).emissions =
      [Emission.error unintelligibleMsg] ∧
    (SpeechRecognitionThread.run language env).uncaught = none := by
  obtain ⟨mic, listen, recog⟩ := env
  have hm : mic = Except.ok () := hmic
  subst hm
  have hl : listen = ListenResult.ok audio := hlisten
  subst hl
  have hr : recog audio language = RecogResult.unknownValue :=
    hservice audio language hsilent
  constructor <;> simp [SpeechRecognitionThread.run, hr]

/-- Witness for C8: a three-sample all-zero capture. -/
theorem C8_silence_unintelligible_witness :
    silenceEnv.micOpen = Except.ok () ∧
    silenceEnv.listen = ListenResult.ok [0, 0, 0] ∧
    silentAudio [0, 0, 0] = true ∧
    ((SpeechRecognitionThread.run "en" silenceEnv).emissions =
      [Emission.error unintelligibleMsg] ∧
     (SpeechRecognitionThread.run "en" silenceEnv).uncaught = none) :=
  ⟨rfl, rfl, by decide,
    C8_silence_unintelligible "en" silenceEnv [0, 0, 0] rfl rfl (by decide)
      (fun a l ha => by simp [silenceEnv, ha])⟩

/-- C9: the recognition worker is started with the source-language code
read at trigger time, while the translation request uses the codes read
at recognition-completion time: if the source dropdown changes to `c`
while the capture is in flight, the recognition call was made with the
old code and the translation call is made with `c`, within the same
cycle. -/
theorem C9_language_reread (s : AppState) (c t : String) (env : TransEnv)
    (hen : s.speakEnabled = true)
    (hc : (languages.map Prod.snd).contains c = true) :
    (step (step (step s Event.click) (Event.setSourceLang c))
        (Event.recognized t env)).recogCalls =
      s.recogCalls ++ [s.sourceLang] ∧
    (step (step (step s Event.click) (Event.setSourceLang c))
        (Event.recognized t env)).translateCalls =
      s.translateCalls ++ [(t, c, s.targetLang)] := by
  obtain ⟨tr, base, call⟩ := env
  have h1 : step s Event.click = TranslationApp.start_speech_recognition s := by
    show (if s.speakEnabled = true then _ else _) = _
    rw [if_pos hen]
  have h2 : step (TranslationApp.start_speech_recognition s)
      (Event.setSourceLang c) =
      { TranslationApp.start_speech_recognition s with sourceLang := c } := by
    show (if (languages.map Prod.snd).contains c = true then _ else _) = _
    rw [if_pos hc]
  have hne : ¬({ TranslationApp.start_speech_recognition s with
      sourceLang := c }.inFlightThreads = []) := by
    show ¬(s.inFlightThreads ++ [s.sourceLang] = [])
    simp
  have h3 : step { TranslationApp.start_speech_recognition s with
      sourceLang := c } (Event.recognized t ⟨tr, ⟨base, call⟩⟩) =
      TranslationApp.on_speech_recognized
        { TranslationApp.start_speech_recognition s with sourceLang := c }
        t ⟨tr, ⟨base, call⟩⟩ := by
    show (if _ = [] then _ else _) = _
    rw [if_neg hne]
  rw [h1, h2, h3]
  constructor <;>
    cases tr <;> cases call <;>
      simp [TranslationApp.start_speech_recognition,
            TranslationApp.on_speech_recognized, TranslationApp.translate_text,
            TranslationApp.generate_and_play_audio, showWarning]

/-- Witness for C9: from the initial state (source `en`), switching the
source dropdown to `fr` mid-flight makes recognition run with `en` and
translation with source `fr`. -/
theorem C9_language_reread_witness :
    initState.speakEnabled = true ∧
    (languages.map Prod.snd).contains "fr" = true ∧
    ((step (step (step initState Event.click) (Event.setSourceLang "fr"))
        (Event.recognized "hello" (cycleEnv "/tmp/tts9"))).recogCalls =
      initState.recogCalls ++ [initState.sourceLang] ∧
     (step (step (step initState Event.click) (Event.setSourceLang "fr"))
        (Event.recognized "hello" (cycleEnv "/tmp/tts9"))).translateCalls =
      initState.translateCalls ++ [("hello", "fr", initState.targetLang)]) :=
  ⟨rfl, by decide,
    C9_language_reread initState "fr" "hello" (cycleEnv "/tmp/tts9") rfl
      (by decide)⟩

/-- C10: if synthesis fails after a successful translation — whether the
`gTTS` construction or the `save` call raises, both of which happen
before `self.temp_audio_file` is reassigned — the translated-text pane
keeps the translated text (it was set before synthesis was attempted),
exactly one `Audio Generation Error` notice is shown, and the tracked
artifact path and the player source still point to the previous cycle's
file. -/
theorem C10_synthesis_failure_frame (s : AppState) (t tr e : String)
    (env : TransEnv) (hin : s.inFlightThreads ≠ [])
    (htr : env.translate = Except.ok tr)
    (hfail : env.synth.call = SynthCall.ctorFail e ∨
             env.synth.call = SynthCall.saveFail e) :
    (step s (Event.recognized t env)).outputText = tr ∧
    (step s (Event.recognized t env)).inputText = t ∧
    (step s (Event.recognized t env)).tempAudioFile = s.tempAudioFile ∧
    (step s (Event.recognized t env)).playerSource = s.playerSource ∧
    (step s (Event.recognized t env)).notices = s.notices ++
      [("Audio Generation Error",
        "An error occurred while generating audio: " ++ e)] ∧
    (step s (Event.recognized t env)).speakEnabled = true ∧
    (step s (Event.recognized t env)).speakLabel = "Speak" := by
  have hs : step s (Event.recognized t env) =
      TranslationApp.on_speech_recognized s t env := by
    show (if s.inFlightThreads = [] then s else _) = _
    rw [if_neg hin]
  rw [hs]
  rcases hfail with hf | hf <;>
    refine ⟨?_, ?_, ?_, ?_, ?_, ?_, ?_⟩ <;>
      simp [TranslationApp.on_speech_recognized, TranslationApp.translate_text,
            TranslationApp.generate_and_play_audio, showWarning, htr, hf]

/-- A translation environment whose synthesis step fails while saving the
audio payload. -/
def synthFailEnv : TransEnv :=
  { translate := Except.ok "hola mundo"
    synth := { freshBase := "/tmp/tts3", call := SynthCall.saveFail "gTTS: no audio" } }

/-- Witness for C10: a failed save right after a successful translation. -/
theorem C10_synthesis_failure_frame_witness :
    (step initState Event.click).inFlightThreads ≠ [] ∧
    synthFailEnv.translate = Except.ok "hola mundo" ∧
    (synthFailEnv.synth.call = SynthCall.ctorFail "gTTS: no audio" ∨
     synthFailEnv.synth.call = SynthCall.saveFail "gTTS: no audio") ∧
    ((step (step initState Event.click)
        (Event.recognized "hello world" synthFailEnv)).outputText
      = "hola mundo" ∧
     (step (step initState Event.click)
        (Event.recognized "hello world" synthFailEnv)).inputText
      = "hello world" ∧
     (step (step initState Event.click)
        (Event.recognized "hello world" synthFailEnv)).tempAudioFile
      = (step initState Event.click).tempAudioFile ∧
     (step (step initState Event.click)
        (Event.recognized "hello world" synthFailEnv)).playerSource
      = (step initState Event.click).playerSource ∧
     (step (step initState Event.click)
        (Event.recognized "hello world" synthFailEnv)).notices
      = (step initState Event.click).notices ++
        [("Audio Generation Error",
          "An error occurred while generating audio: " ++ "gTTS: no audio")] ∧
     (step (step initState Event.click)
        (Event.recognized "hello world" synthFailEnv)).speakEnabled = true ∧
     (step (step initState Event.click)
        (Event.recognized "hello world" synthFailEnv)).speakLabel = "Speak") :=
  ⟨by decide, rfl, Or.inr rfl,
    C10_synthesis_failure_frame (step initState Event.click) "hello world"
      "hola mundo" "gTTS: no audio" synthFailEnv (by decide) rfl (Or.inr rfl)⟩

end SpeechApp
